import Mathlib

/-!
Shallow embedding of the mongodb-exporter collector package
(`collector/common.go`, `collector/wiredtiger.go`, `collector/server_status.go`,
`collector/profile.go`, replica-set collector) and proofs of the frozen claims
about it.

Modelling conventions:
* Go `float64` is modelled by `GoFloat`: an exact rational for finite values
  plus explicit NaN / +Inf / -Inf, with IEEE-style comparison semantics
  (any comparison involving NaN is false).  All concrete values appearing in
  the claims are exactly representable in `float64`, so the rational
  idealisation is exact on them.
* Go dynamically typed BSON values (`interface{}` under `bson.M`) are the
  inductive `BVal`; `bson.M` is an association list `BsonM` with first-match
  lookup (Go map keys are unique, so this is faithful).
* Go `map[string]string` (instance label maps, `prometheus.Labels`) is the
  association list `StrMap` with in-place update `mapSet`.
* Go map iteration order is unspecified; loops over maps are modelled by
  iterating in the order the source lists the entries.  Claims are stated so
  that they are insensitive to that order (membership, per-key lookup).
* A collector's `Collect(ch chan<- prometheus.Metric)` emits metrics on a
  channel and returns nothing; it is modelled as a function returning the
  list of emitted metrics (plus the new collector state where the collector
  is stateful).  Upstream query results are passed in as `Except`to model
  the driver call outcome.
-/

/-- Model of a Go `float64`: exact finite rationals plus the non-finite
values. -/
inductive GoFloat where
  | finite (q : ℚ)
  | nan
  | posInf
  | negInf
deriving DecidableEq, Repr

namespace GoFloat

/-- IEEE `<` on `float64`: every comparison with NaN is false. -/
def lt : GoFloat → GoFloat → Bool
  | .finite a, .finite b => decide (a < b)
  | .nan, _ => false
  | _, .nan => false
  | .negInf, .negInf => false
  | .negInf, _ => true
  | _, .negInf => false
  | .posInf, _ => false
  | .finite _, .posInf => true

/-- IEEE `<=` on `float64`: every comparison with NaN is false. -/
def le : GoFloat → GoFloat → Bool
  | .finite a, .finite b => decide (a ≤ b)
  | .nan, _ => false
  | _, .nan => false
  | .negInf, _ => true
  | .posInf, .posInf => true
  | .posInf, _ => false
  | .finite _, .posInf => true
  | .finite _, .negInf => false

/-- IEEE `==` on `float64`: NaN is not equal to anything, itself included. -/
def ieeeEq : GoFloat → GoFloat → Bool
  | .finite a, .finite b => decide (a = b)
  | .nan, _ => false
  | _, .nan => false
  | .posInf, .posInf => true
  | .negInf, .negInf => true
  | _, _ => false

/-- Multiplication of a `float64` by a positive natural constant (used for
the MB-to-bytes conversion `value * 1024 * 1024`).  On the non-finite values
multiplication by a positive constant is the identity, as in IEEE. -/
def mulPosNat : GoFloat → Nat → GoFloat
  | .finite q, n => .finite (q * n)
  | .nan, _ => .nan
  | .posInf, _ => .posInf
  | .negInf, _ => .negInf

end GoFloat

/-- Model of a dynamically typed BSON value as decoded into Go`s `bson.M`
(`interface{}` at every leaf).  The numeric constructors record the Go
dynamic type, which the source inspects with type assertions. -/
inductive BVal where
  | str (s : String)
  | i64 (n : Int)
  | i32 (n : Int)
  | iGo (n : Int)
  | i16 (n : Int)
  | f64 (x : GoFloat)
  | f32 (x : GoFloat)
  | doc (m : List (String × BVal))
  | arr (a : List BVal)
  | tstamp (t : Int)
  | nullB
deriving Repr

/-- Go `bson.M`: a string-keyed document. -/
abbrev BsonM := List (String × BVal)

/-- Go map indexing `m[k]`: `none` models the `nil` interface obtained for an
absent key. -/
def bGet (m : BsonM) (k : String) : Option BVal :=
  (m.find? (fun p => p.1 == k)).map (·.2)

/-- Type assertion `.(string)` applied to a possibly-nil interface value. -/
def asString : Option BVal → Option String
  | some (.str s) => some s
  | _ => none

/-- Type assertion `.(bson.M)`. -/
def asDoc : Option BVal → Option BsonM
  | some (.doc m) => some m
  | _ => none

/-- Type assertion `.(bson.A)`. -/
def asArr : Option BVal → Option (List BVal)
  | some (.arr a) => some a
  | _ => none

/-- Type assertion `.(int64)`. -/
def asI64 : Option BVal → Option Int
  | some (.i64 n) => some n
  | _ => none

/-- Type assertion `.(int32)`. -/
def asI32 : Option BVal → Option Int
  | some (.i32 n) => some n
  | _ => none

/-- Type assertion `.(float64)`. -/
def asF64 : Option BVal → Option GoFloat
  | some (.f64 x) => some x
  | _ => none

/-- Type assertion `.(primitive.Timestamp)`. -/
def asTstamp : Option BVal → Option Int
  | some (.tstamp t) => some t
  | _ => none

/-- `safeGetNumericValue` from `collector/common.go`: switch on the dynamic
type; negative `int64`/`int32`/`int`/`float64` values and every other dynamic
type yield `nil`, otherwise the value converted to `float64`. -/
def safeGetNumericValue : BVal → Option GoFloat
  | .i64 n => if n < 0 then none else some (.finite n)
  | .i32 n => if n < 0 then none else some (.finite n)
  | .iGo n => if n < 0 then none else some (.finite n)
  | .f64 x => if x.lt (.finite 0) then none else some x
  | _ => none

/-- `safeGetNumericValue` applied to the result of a map index: an absent key
gives the `nil` interface, which falls into the `default` case. -/
def safeGetNumericValueOpt : Option BVal → Option GoFloat
  | none => none
  | some v => safeGetNumericValue v

/-- `validateMetricValue` from `collector/common.go`. -/
def validateMetricValue : Option GoFloat → Bool
  | none => false
  | some v => !(v.lt (.finite 0))

/-- `CollectorConfig` from `collector/wiredtiger.go` (the `Collectors`
field, a `map[string]interface{}` of collector-specific options, is not used
by any claimed-about code and is omitted). -/
structure CollectorConfig where
  CustomLabels : List (String × String)
  EnabledMetrics : List String
  DisabledMetrics : List String
deriving Repr

/-- `BaseCollector.isMetricEnabled` from `collector/wiredtiger.go`
(`CollectorManager.isMetricEnabled` is the same code on the same config
fields): scan the deny-list first, then defaulting on empty allow-list, then
scan the allow-list. -/
def isMetricEnabled (config : CollectorConfig) (metricName : String) : Bool :=
  if config.DisabledMetrics.any (fun disabled => disabled == metricName) then
    false
  else if config.EnabledMetrics.length == 0 then
    true
  else
    config.EnabledMetrics.any (fun enabled => enabled == metricName)

/-- Go `map[string]string`. -/
abbrev StrMap := List (String × String)

/-- Go map update `m[k] = v`: replace the binding if the key is present,
otherwise add it. -/
def mapSet : StrMap → String → String → StrMap
  | [], k, v => [(k, v)]
  | p :: rest, k, v => if p.1 == k then (k, v) :: rest else p :: mapSet rest k v

/-- Go map lookup returning an `Option` (first matching binding; keys are
unique in every map this models). -/
def mapGet : StrMap → String → Option String
  | [], _ => none
  | p :: rest, k => if p.1 == k then some p.2 else mapGet rest k

/-- Go map indexing `m[k]` in value position: the zero value `""` for an
absent key. -/
def mapGetD (m : StrMap) (k : String) : String :=
  (mapGet m k).getD ""

/-- `BaseCollector.getInstanceInfo` from `collector/wiredtiger.go`:
initialise all three labels to `"unknown"`, then overwrite each from the
snapshot when the field is present with the asserted type. -/
def getInstanceInfo (result : BsonM) : StrMap :=
  let inst0 : StrMap :=
    [("instance", "unknown"), ("replica_set", "unknown"), ("shard", "unknown")]
  let inst1 :=
    match asString (bGet result "host") with
    | some host => mapSet inst0 "instance" host
    | none => inst0
  let inst2 :=
    match asDoc (bGet result "repl") with
    | some repl =>
        match asString (bGet repl "setName") with
        | some setName => mapSet inst1 "replica_set" setName
        | none => inst1
    | none => inst1
  match asString (bGet result "shard") with
  | some shard => mapSet inst2 "shard" shard
  | none => inst2

/-- `BaseCollector.addCustomLabels` from `collector/wiredtiger.go`: write
every configured custom label into the given label map. -/
def addCustomLabels (custom : List (String × String)) (labels : StrMap) : StrMap :=
  custom.foldl (fun acc p => mapSet acc p.1 p.2) labels

/-- A `prometheus.Desc` as built by `prometheus.NewDesc(name, help, labels,
nil)`. -/
structure Desc where
  fqName : String
  help : String
  variableLabels : List String
deriving DecidableEq, Repr

/-- The prometheus value type passed to `MustNewConstMetric`. -/
inductive MetricType where
  | gauge
  | counter
deriving DecidableEq, Repr

/-- A constant metric as built by `prometheus.MustNewConstMetric(desc, type,
value, labelValues...)` and sent on the output channel. -/
structure Metric where
  name : String
  mtype : MetricType
  value : GoFloat
  labelValues : List String
deriving DecidableEq, Repr

/-- Lookup in a descriptor map `map[string]*prometheus.Desc`. -/
def descGetD (m : List (String × Desc)) (k : String) : Desc :=
  ((m.find? (fun p => p.1 == k)).map (·.2)).getD ⟨"", "", []⟩

/-- The descriptor map built by `NewServerStatusCollector`
(`collector/server_status.go`, lines 18-82). -/
def serverStatusDescriptors : List (String × Desc) :=
  let labels := ["instance", "replica_set", "shard"]
  [ ("uptime_seconds",
      ⟨"mongodb_instance_uptime_seconds",
       "The uptime of the MongoDB instance in seconds", labels⟩),
    ("connections",
      ⟨"mongodb_connections",
       "The current connections metrics", labels ++ ["state"]⟩),
    ("memory",
      ⟨"mongodb_memory_bytes",
       "The current memory usage in bytes", labels ++ ["type"]⟩),
    ("extra_info",
      ⟨"mongodb_extra_info",
       "Extra information metrics", labels ++ ["type"]⟩),
    ("network_bytes_total",
      ⟨"mongodb_network_bytes_total",
       "Network traffic metrics", labels ++ ["direction"]⟩),
    ("op_counters_total",
      ⟨"mongodb_op_counters_total",
       "Operation counters", labels ++ ["type"]⟩),
    ("metrics_document_total",
      ⟨"mongodb_metrics_document_total",
       "Document operation metrics", labels ++ ["type"]⟩),
    ("connections_metrics",
      ⟨"mongodb_connections_metrics",
       "Connections metrics", labels ++ ["type"]⟩),
    ("page_faults_total",
      ⟨"mongodb_page_faults_total",
       "Page fault statistics", labels⟩) ]

/-- `ServerStatusCollector`: configuration (via the embedded
`BaseCollector`) plus the descriptor map built once at construction. -/
structure ServerStatusCollector where
  config : CollectorConfig
  descriptors : List (String × Desc)
deriving Repr

/-- `NewServerStatusCollector` (`collector/server_status.go`): the
descriptor map is built here and never written afterwards. -/
def newServerStatusCollector (config : CollectorConfig) : ServerStatusCollector :=
  ⟨config, serverStatusDescriptors⟩

namespace ServerStatusCollector

/-- `ServerStatusCollector.collectMetrics` (`collector/server_status.go`,
lines 112-280), translated section by section.  Map-valued loops iterate in
the order the source lists the entries. -/
def collectMetrics (c : ServerStatusCollector) (result : BsonM) : List Metric :=
  let inst := getInstanceInfo result
  let li := mapGetD inst "instance"
  let lr := mapGetD inst "replica_set"
  let ls := mapGetD inst "shard"
  -- Uptime with validation
  let uptimeMs : List Metric :=
    match asF64 (bGet result "uptime") with
    | some uptime =>
        if GoFloat.le (.finite 0) uptime then
          [⟨(descGetD c.descriptors "uptime_seconds").fqName, .gauge, uptime,
            [li, lr, ls]⟩]
        else []
    | none => []
  -- Connections
  let connectionMs : List Metric :=
    match asDoc (bGet result "connections") with
    | some connections =>
        let states := [("current", "current"), ("available", "available"),
                       ("active", "active"), ("totalCreated", "total_created")]
        let stateMs := states.filterMap (fun p =>
          (safeGetNumericValueOpt (bGet connections p.1)).map (fun value =>
            ⟨(descGetD c.descriptors "connections").fqName, .gauge, value,
             [li, lr, ls, p.2]⟩))
        let connMetricsMs :=
          match asDoc (bGet connections "metrics") with
          | some metricsDoc =>
              let metricTypes :=
                [("awaitingTopology", "awaiting_topology"), ("pending", "pending"),
                 ("rejected", "rejected"), ("timedOut", "timed_out")]
              metricTypes.filterMap (fun p =>
                (safeGetNumericValueOpt (bGet metricsDoc p.1)).map (fun value =>
                  ⟨(descGetD c.descriptors "connections_metrics").fqName, .counter,
                   value, [li, lr, ls, p.2]⟩))
          | none => []
        stateMs ++ connMetricsMs
    | none => []
  -- Memory, with the MB-to-bytes conversion value*1024*1024
  let memMs : List Metric :=
    match asDoc (bGet result "mem") with
    | some mem =>
        let memTypes := [("resident", "resident"), ("virtual", "virtual"),
                         ("mapped", "mapped"),
                         ("mappedWithJournal", "mapped_with_journal")]
        memTypes.filterMap (fun p =>
          (safeGetNumericValueOpt (bGet mem p.1)).map (fun value =>
            ⟨(descGetD c.descriptors "memory").fqName, .gauge,
             (value.mulPosNat 1024).mulPosNat 1024, [li, lr, ls, p.2]⟩))
    | none => []
  -- extra_info
  let extraMs : List Metric :=
    match asDoc (bGet result "extra_info") with
    | some extraInfo =>
        let pageFaultMs :=
          match safeGetNumericValueOpt (bGet extraInfo "page_faults") with
          | some value =>
              [⟨(descGetD c.descriptors "page_faults_total").fqName, .counter,
                value, [li, lr, ls]⟩]
          | none => []
        let extraTypes := [("heap_usage_bytes", "heap_usage"),
                           ("page_faults", "page_faults"),
                           ("freeMonitoringStatus", "free_monitoring_status")]
        pageFaultMs ++ extraTypes.filterMap (fun p =>
          (safeGetNumericValueOpt (bGet extraInfo p.1)).map (fun value =>
            ⟨(descGetD c.descriptors "extra_info").fqName, .gauge, value,
             [li, lr, ls, p.2]⟩))
    | none => []
  -- Network
  let networkMs : List Metric :=
    match asDoc (bGet result "network") with
    | some network =>
        let networkMetrics := [("bytesIn", "in"), ("bytesOut", "out")]
        networkMetrics.filterMap (fun p =>
          (safeGetNumericValueOpt (bGet network p.1)).map (fun value =>
            ⟨(descGetD c.descriptors "network_bytes_total").fqName, .counter,
             value, [li, lr, ls, p.2]⟩))
    | none => []
  -- opcounters: dynamic iteration over the document's own keys
  let opMs : List Metric :=
    match asDoc (bGet result "opcounters") with
    | some opCounters =>
        opCounters.filterMap (fun p =>
          (safeGetNumericValue p.2).map (fun val =>
            ⟨(descGetD c.descriptors "op_counters_total").fqName, .counter, val,
             [li, lr, ls, p.1]⟩))
    | none => []
  -- metrics.document
  let docMs : List Metric :=
    match asDoc (bGet result "metrics") with
    | some metricsDoc =>
        match asDoc (bGet metricsDoc "document") with
        | some document =>
            let types := ["deleted", "inserted", "returned", "updated"]
            types.filterMap (fun docType =>
              (safeGetNumericValueOpt (bGet document docType)).map (fun value =>
                ⟨(descGetD c.descriptors "metrics_document_total").fqName,
                 .counter, value, [li, lr, ls, docType]⟩))
        | none => []
    | none => []
  uptimeMs ++ connectionMs ++ memMs ++ extraMs ++ networkMs ++ opMs ++ docMs

/-- `ServerStatusCollector.Collect` (`collector/server_status.go`, lines
84-100): enablement gate, then the `serverStatus` admin command; on a query
error it logs and returns with nothing emitted.  The collector state is
returned unchanged: `Collect` writes no field. -/
def collect (c : ServerStatusCollector) (queryOutcome : Except String BsonM) :
    ServerStatusCollector × List Metric :=
  if !isMetricEnabled c.config "server_status" then (c, [])
  else
    match queryOutcome with
    | .error _ => (c, [])
    | .ok result => (c, c.collectMetrics result)

/-- `ServerStatusCollector.Describe` (`collector/server_status.go`, lines
102-106): send every descriptor of the construction-time map. -/
def describe (c : ServerStatusCollector) : List Desc :=
  c.descriptors.map (·.2)

end ServerStatusCollector

/-- The descriptor map built by `NewReplicaSetCollector`. -/
def replicaSetDescriptors : List (String × Desc) :=
  let labels := ["instance", "replica_set", "shard"]
  let memberLabels := labels ++ ["name", "state"]
  [ ("member_state",
      ⟨"mongodb_replset_member_state",
       "State of the replica set member (1=Primary, 2=Secondary, 7=Arbiter)",
       memberLabels⟩),
    ("member_health",
      ⟨"mongodb_replset_member_health",
       "Health status of the replica set member (0=unhealthy, 1=healthy)",
       memberLabels⟩),
    ("number_of_members",
      ⟨"mongodb_replset_number_of_members",
       "Total number of members in the replica set", labels⟩),
    ("oplog_size_bytes",
      ⟨"mongodb_replset_oplog_size_bytes",
       "Size of the oplog in bytes", labels⟩),
    ("oplog_head_timestamp",
      ⟨"mongodb_replset_oplog_head_timestamp",
       "Timestamp of the newest oplog entry", labels⟩) ]

/-- `ReplicaSetCollector.getStateString`: a Go `switch` on `float64`
equality. -/
def getStateString (state : GoFloat) : String :=
  if GoFloat.ieeeEq state (.finite 1) then "PRIMARY"
  else if GoFloat.ieeeEq state (.finite 2) then "SECONDARY"
  else if GoFloat.ieeeEq state (.finite 7) then "ARBITER"
  else "UNKNOWN"

/-- The member-list part of `ReplicaSetCollector.Collect` (lines 413-463 of
the replica-set source): the member-count gauge, then per-member state and
health gauges; a member with a missing or wrongly typed name, state or
health field is logged and skipped. -/
def replicaSetMemberMetrics (replStatus : BsonM) : List Metric :=
  let inst := getInstanceInfo replStatus
  let li := mapGetD inst "instance"
  let lr := mapGetD inst "replica_set"
  let ls := mapGetD inst "shard"
  match asArr (bGet replStatus "members") with
  | some members =>
      ⟨(descGetD replicaSetDescriptors "number_of_members").fqName, .gauge,
       .finite members.length, [li, lr, ls]⟩ ::
      members.foldr (fun m acc =>
        (match asDoc (some m) with
         | some member =>
             match asString (bGet member "name"), asI32 (bGet member "state"),
                   asI32 (bGet member "health") with
             | some name, some state, some health =>
                 [⟨(descGetD replicaSetDescriptors "member_state").fqName, .gauge,
                   .finite state,
                   [li, lr, ls, name, getStateString (.finite state)]⟩,
                  ⟨(descGetD replicaSetDescriptors "member_health").fqName, .gauge,
                   .finite health,
                   [li, lr, ls, name, getStateString (.finite state)]⟩]
             | _, _, _ => []
         | none => []) ++ acc) []
  | none => []

/-- The oplog-size gauge emitted from a decoded `collStats` result (lines
477-486 of the replica-set source). -/
def oplogSizeMetrics (inst : StrMap) (oplogStats : BsonM) : List Metric :=
  match asI64 (bGet oplogStats "size") with
  | some size =>
      [⟨(descGetD replicaSetDescriptors "oplog_size_bytes").fqName, .gauge,
        .finite size,
        [mapGetD inst "instance", mapGetD inst "replica_set", mapGetD inst "shard"]⟩]
  | none => []

/-- `ReplicaSetCollector.collectOplogMetrics`: the oplog `collStats` query,
then the newest-oplog-entry query; each error logs and returns early,
keeping what was already emitted. -/
def collectOplogMetrics (inst : StrMap)
    (oplogStatsOutcome latestOplogOutcome : Except String BsonM) : List Metric :=
  match oplogStatsOutcome with
  | .error _ => []
  | .ok oplogStats =>
      match latestOplogOutcome with
      | .error _ => oplogSizeMetrics inst oplogStats
      | .ok latestOplog =>
          oplogSizeMetrics inst oplogStats ++
          (match asTstamp (bGet latestOplog "ts") with
           | some t =>
               [⟨(descGetD replicaSetDescriptors "oplog_head_timestamp").fqName,
                 .gauge, .finite t,
                 [mapGetD inst "instance", mapGetD inst "replica_set",
                  mapGetD inst "shard"]⟩]
           | none => [])

/-- `ReplicaSetCollector.Collect`: enablement gate, the `replSetGetStatus`
command (any error — including the not-a-replica-set case — logs and returns
with nothing emitted), then member metrics, then oplog metrics. -/
def replicaSetCollect (config : CollectorConfig)
    (replStatusOutcome oplogStatsOutcome latestOplogOutcome : Except String BsonM) :
    List Metric :=
  if !isMetricEnabled config "replica_set_status" then []
  else
    match replStatusOutcome with
    | .error _ => []
    | .ok replStatus =>
        replicaSetMemberMetrics replStatus ++
        collectOplogMetrics (getInstanceInfo replStatus) oplogStatsOutcome
          latestOplogOutcome

/-- Behaviour of one registered collector's `Collect` call in one cycle:
either it runs to completion having emitted `metrics`, or it panics after
having emitted a prefix `emitted` of its observations. -/
inductive RunOutcome where
  | ok (metrics : List Metric)
  | panics (emitted : List Metric) (payload : String)
deriving Repr

/-- A collector as seen by the `MultiCollector` registry: its `Name()`, its
`Describe` output, and its `Collect` behaviour for the cycle under
consideration. -/
structure SimCollector where
  name : String
  describeOut : List Desc
  run : RunOutcome

/-- One error recorded by the fan-out engine
(`fmt.Errorf("panic in collector %s: %v", c.Name(), r)`). -/
structure CollectError where
  collector : String
  payload : String
deriving DecidableEq, Repr

/-- The wrapped per-collector task of `MultiCollector.Collect`
(`collector/wiredtiger.go`, lines 404-417): run the collector; a panic is
recovered, turned into one recorded error naming the collector, and never
re-raised. -/
def runOne (c : SimCollector) : List Metric × List CollectError :=
  match c.run with
  | .ok metrics => (metrics, [])
  | .panics emitted payload => (emitted, [⟨c.name, payload⟩])

/-- `MultiCollector.Collect` (`collector/wiredtiger.go`, lines 392-427),
sequentialised: the goroutines only interleave on the shared output channel
and the error slice, so the emitted multiset and the recorded error set are
those of running the wrapped tasks one after the other; the scheduling
order is abstracted to registration order.  The function is total: the call
always returns normally to the caller. -/
def multiCollect (collectors : List SimCollector) :
    List Metric × List CollectError :=
  collectors.foldl (fun acc c =>
    let r := runOne c
    (acc.1 ++ r.1, acc.2 ++ r.2)) ([], [])

/-- `MultiCollector.RemoveCollector` (`collector/wiredtiger.go`, lines
379-390): scan the registration list and splice out the first collector
whose `Name()` matches; no match leaves the list as it was. -/
def removeCollector : List SimCollector → String → List SimCollector
  | [], _ => []
  | c :: rest, name =>
      if c.name == name then rest else c :: removeCollector rest name

/-- `MultiCollector.Describe` (`collector/wiredtiger.go`, lines 429-433):
forward `Describe` to every registered collector in order. -/
def multiDescribe (collectors : List SimCollector) : List Desc :=
  (collectors.map (·.describeOut)).flatten

/-- The mutable state of `ProfileCollector`: the watermark timestamp.
Times are modelled as integers. -/
structure ProfileState where
  lastCheck : Int
deriving DecidableEq, Repr

/-- One time-windowed `system.profile` query issued by
`collectDatabaseProfileMetrics`: the find filter is
`ts >= since AND ts < untilT` (`$gte` / `$lt`, a half-open window). -/
structure ProfileWindow where
  db : String
  since : Int
  untilT : Int
deriving DecidableEq, Repr

/-- An entry timestamp falls in the half-open query window. -/
def inWindow (w : ProfileWindow) (t : Int) : Prop :=
  w.since ≤ t ∧ t < w.untilT

instance (w : ProfileWindow) (t : Int) : Decidable (inWindow w t) := by
  unfold inWindow; infer_instance

/-- `ProfileCollector.shouldSkipDatabase` (`collector/profile.go`). -/
def profileShouldSkipDatabase (dbName : String) : Bool :=
  ["admin", "config", "local"].any (fun sysDB => dbName == sysDB)

/-- `ProfileCollector.Collect` (`collector/profile.go`, lines 108-137) at
the level of the watermark and of the profile-collection query windows it
issues: if the collector is disabled, or listing database names fails,
nothing is queried and `lastCheck` is untouched; otherwise every
non-system database is queried with the window
`[lastCheck, currentTime)` and `lastCheck` is then advanced to
`currentTime`.  What happens inside each per-database query (profiling
disabled, query error, entry aggregation) does not touch `lastCheck`. -/
def profileCollect (st : ProfileState) (config : CollectorConfig)
    (listDbsOutcome : Except String (List String)) (currentTime : Int) :
    ProfileState × List ProfileWindow :=
  if !isMetricEnabled config "profile" then (st, [])
  else
    match listDbsOutcome with
    | .error _ => (st, [])
    | .ok databases =>
        let windows :=
          (databases.filter (fun dbName => !profileShouldSkipDatabase dbName)).map
            (fun dbName => ⟨dbName, st.lastCheck, currentTime⟩)
        (⟨currentTime⟩, windows)

/-! ## Helper lemmas -/

lemma mapGet_mapSet (m : StrMap) (k v k' : String) :
    mapGet (mapSet m k v) k' = if k' = k then some v else mapGet m k' := by
  induction m with
  | nil =>
      by_cases h : k' = k
      · subst h; simp [mapSet, mapGet]
      · simp [mapSet, mapGet, beq_iff_eq, h, Ne.symm h]
  | cons p rest ih =>
      by_cases hp : p.1 = k
      · by_cases h : k' = k
        · subst h; simp [mapSet, mapGet, hp]
        · simp [mapSet, mapGet, hp, beq_iff_eq, h, Ne.symm h]
      · by_cases h2 : p.1 = k'
        · have hk : k' ≠ k := fun e => hp (h2.trans e)
          simp [mapSet, mapGet, beq_iff_eq, hp, h2, hk]
        · simp [mapSet, mapGet, beq_iff_eq, hp, h2, ih]

lemma mapGet_addCustomLabels_of_notMem (custom : List (String × String))
    (k : String) :
    ∀ labels : StrMap, (∀ p ∈ custom, p.1 ≠ k) →
      mapGet (addCustomLabels custom labels) k = mapGet labels k := by
  induction custom with
  | nil => intro labels _; rfl
  | cons p rest ih =>
      intro labels h
      have hstep : addCustomLabels (p :: rest) labels =
          addCustomLabels rest (mapSet labels p.1 p.2) := rfl
      rw [hstep, ih _ (fun q hq => h q (List.mem_cons_of_mem p hq)), mapGet_mapSet]
      exact if_neg (fun e => h p (List.mem_cons_self p rest) e.symm)

lemma mapGet_addCustomLabels_of_mem (custom : List (String × String))
    (k v : String) :
    ∀ labels : StrMap, (custom.map Prod.fst).Nodup → mapGet custom k = some v →
      mapGet (addCustomLabels custom labels) k = some v := by
  induction custom with
  | nil => intro labels _ hget; simp [mapGet] at hget
  | cons p rest ih =>
      intro labels hnodup hget
      simp only [List.map_cons, List.nodup_cons] at hnodup
      by_cases hp : p.1 = k
      · have hv : p.2 = v := by simpa [mapGet, hp] using hget
        have hrest : ∀ q ∈ rest, q.1 ≠ k := by
          intro q hq hqk
          exact hnodup.1 (by rw [hp, ← hqk]; exact List.mem_map_of_mem Prod.fst hq)
        have hstep : addCustomLabels (p :: rest) labels =
            addCustomLabels rest (mapSet labels p.1 p.2) := rfl
        rw [hstep, mapGet_addCustomLabels_of_notMem rest k _ hrest, mapGet_mapSet]
        simp [hp, hv]
      · have hget' : mapGet rest k = some v := by
          simpa [mapGet, beq_iff_eq, hp] using hget
        have hstep : addCustomLabels (p :: rest) labels =
            addCustomLabels rest (mapSet labels p.1 p.2) := rfl
        rw [hstep]
        exact ih _ hnodup.2 hget'

lemma getInstanceInfo_fields (result : BsonM) :
    getInstanceInfo result =
      [("instance", (asString (bGet result "host")).getD "unknown"),
       ("replica_set",
        ((asDoc (bGet result "repl")).bind
          (fun repl => asString (bGet repl "setName"))).getD "unknown"),
       ("shard", (asString (bGet result "shard")).getD "unknown")] := by
  unfold getInstanceInfo
  rcases h1 : asString (bGet result "host") with _ | host <;>
    rcases h2 : asDoc (bGet result "repl") with _ | repl <;>
    rcases h4 : asString (bGet result "shard") with _ | sh <;>
    simp only [h1, h2, h4, Option.some_bind, Option.none_bind] <;>
    first
      | rfl
      | (rcases h3 : asString (bGet repl "setName") with _ | sn <;>
          simp only [h3] <;> rfl)

lemma serverStatusCollect_fst (c : ServerStatusCollector)
    (q : Except String BsonM) : (c.collect q).1 = c := by
  unfold ServerStatusCollector.collect
  cases q <;> split <;> rfl

/-! ## Claim theorems -/

/-- C2.  Enablement Policy decision: membership of the deny-list forces
`isMetricEnabled` to return false regardless of the allow-list; otherwise an
empty allow-list means enabled for every name; otherwise the result is true
exactly for members of the allow-list. -/
theorem enablementPolicy_C2 (config : CollectorConfig) (name : String) :
    (name ∈ config.DisabledMetrics → isMetricEnabled config name = false) ∧
    (name ∉ config.DisabledMetrics → config.EnabledMetrics = [] →
      isMetricEnabled config name = true) ∧
    (name ∉ config.DisabledMetrics → config.EnabledMetrics ≠ [] →
      (isMetricEnabled config name = true ↔ name ∈ config.EnabledMetrics)) := by
  refine ⟨?_, ?_, ?_⟩
  · intro hd
    have h1 : config.DisabledMetrics.any (fun disabled => disabled == name) = true :=
      List.any_eq_true.mpr ⟨name, hd, by simp⟩
    simp [isMetricEnabled, h1]
  · intro hd he
    have h1 : config.DisabledMetrics.any (fun disabled => disabled == name) = false := by
      simp only [List.any_eq_false, beq_iff_eq]
      intro x hx e
      exact hd (e ▸ hx)
    simp [isMetricEnabled, h1, he]
  · intro hd hne
    have h1 : config.DisabledMetrics.any (fun disabled => disabled == name) = false := by
      simp only [List.any_eq_false, beq_iff_eq]
      intro x hx e
      exact hd (e ▸ hx)
    have h2 : (config.EnabledMetrics.length == 0) = false := by
      simp [beq_iff_eq, List.length_eq_zero, hne]
    simp [isMetricEnabled, h1, h2, List.any_eq_true, beq_iff_eq]

/-- C2 witness: a name on both lists is disabled — the deny-list wins. -/
theorem enablementPolicy_C2_witness :
    isMetricEnabled ⟨[], ["wiredtiger"], ["wiredtiger"]⟩ "wiredtiger" = false :=
  (enablementPolicy_C2 ⟨[], ["wiredtiger"], ["wiredtiger"]⟩ "wiredtiger").1
    (by decide)

/-- C3 counterexample: the claim says the helper accepts signed-integer and
floating-point inputs of any source width, naming `int16` and `float32`;
the code's type switch has no `int16` or `float32` case, so those inputs
fall into `default` and yield absent instead of the converted value. -/
theorem valueCoercion_counterexample_C3 :
    safeGetNumericValue (BVal.i16 50) = none ∧
    safeGetNumericValue (BVal.f32 (GoFloat.finite 5)) = none ∧
    safeGetNumericValue (BVal.i16 50) ≠ some (GoFloat.finite 50) := by
  refine ⟨rfl, rfl, ?_⟩
  decide

/-- C3 (amended).  `safeGetNumericValue` returns absent for all negative
`int64`/`int32`/`int`/`float64` inputs and for every input of any other
dynamic type — including the numeric widths `int16` and `float32`, which
the type switch does not handle — and returns the exactly-equivalent
floating-point value for non-negative inputs of the four handled
representations; absence is the only error channel. -/
theorem valueCoercion_amended_C3 (n : Int) (x : GoFloat) (s : String)
    (d : BsonM) (a : List BVal) (t : Int) :
    (0 ≤ n → safeGetNumericValue (.i64 n) = some (.finite n) ∧
             safeGetNumericValue (.i32 n) = some (.finite n) ∧
             safeGetNumericValue (.iGo n) = some (.finite n)) ∧
    (n < 0 → safeGetNumericValue (.i64 n) = none ∧
             safeGetNumericValue (.i32 n) = none ∧
             safeGetNumericValue (.iGo n) = none) ∧
    (x.lt (.finite 0) = false → safeGetNumericValue (.f64 x) = some x) ∧
    (x.lt (.finite 0) = true → safeGetNumericValue (.f64 x) = none) ∧
    safeGetNumericValue (.i16 n) = none ∧
    safeGetNumericValue (.f32 x) = none ∧
    safeGetNumericValue (.str s) = none ∧
    safeGetNumericValue (.doc d) = none ∧
    safeGetNumericValue (.arr a) = none ∧
    safeGetNumericValue (.tstamp t) = none ∧
    safeGetNumericValue .nullB = none := by
  refine ⟨?_, ?_, ?_, ?_, rfl, rfl, rfl, rfl, rfl, rfl, rfl⟩
  · intro h
    simp [safeGetNumericValue, not_lt.2 h]
  · intro h
    simp [safeGetNumericValue, h]
  · intro h
    simp [safeGetNumericValue, h]
  · intro h
    simp [safeGetNumericValue, h]

/-- C3 witness: the amended theorem evaluated on the test-suite inputs. -/
theorem valueCoercion_amended_C3_witness :
    safeGetNumericValue (BVal.i64 100) = some (GoFloat.finite 100) ∧
    safeGetNumericValue (BVal.i32 (-5)) = none ∧
    safeGetNumericValue (BVal.f64 (GoFloat.finite 3)) = some (GoFloat.finite 3) ∧
    safeGetNumericValue (BVal.str "invalid") = none := by
  have h := valueCoercion_amended_C3 100 (GoFloat.finite 3) "invalid" [] [] 0
  have h2 := valueCoercion_amended_C3 (-5) GoFloat.nan "" [] [] 0
  exact ⟨(h.1 (by decide)).1, (h2.2.1 (by decide)).2.1,
    h.2.2.1 (by decide), h.2.2.2.2.2.2.1⟩

/-- C9.  Removing a collector by a name that matches no registered
collector leaves the registration list unchanged (same length, same
elements, same order), and the call returns without error. -/
theorem removeAbsent_noop_C9 (cs : List SimCollector) (name : String)
    (h : ∀ c ∈ cs, c.name ≠ name) : removeCollector cs name = cs := by
  induction cs with
  | nil => rfl
  | cons c rest ih =>
      have hb : (c.name == name) = false :=
        beq_eq_false_iff_ne.mpr (h c (List.mem_cons_self c rest))
      simp only [removeCollector, hb, Bool.false_eq_true, if_false]
      rw [ih (fun d hd => h d (List.mem_cons_of_mem c hd))]

/-- C9 witness: removing an unregistered name from a one-element registry. -/
theorem removeAbsent_noop_C9_witness :
    removeCollector [⟨"server_status", [], .ok []⟩] "absent" =
      [⟨"server_status", [], .ok []⟩] :=
  removeAbsent_noop_C9 [⟨"server_status", [], .ok []⟩] "absent" (by decide)

/-- C1.  Fan-out isolation: with one always-panicking collector and one
always-succeeding collector registered, `MultiCollector.Collect` emits the
successful collector's full observation set, records exactly one fault
naming the panicking collector, and returns normally (the model is a total
function) — in either registration order. -/
theorem fanOutIsolation_C1 (bad good : SimCollector)
    (emitted goodMetrics : List Metric) (payload : String)
    (hbad : bad.run = .panics emitted payload)
    (hgood : good.run = .ok goodMetrics) :
    multiCollect [bad, good] = (emitted ++ goodMetrics, [⟨bad.name, payload⟩]) ∧
    multiCollect [good, bad] = (goodMetrics ++ emitted, [⟨bad.name, payload⟩]) ∧
    ∀ m ∈ goodMetrics, m ∈ (multiCollect [bad, good]).1 := by
  have h1 : multiCollect [bad, good] =
      (emitted ++ goodMetrics, [⟨bad.name, payload⟩]) := by
    simp [multiCollect, runOne, hbad, hgood]
  refine ⟨h1, ?_, ?_⟩
  · simp [multiCollect, runOne, hbad, hgood]
  · intro m hm
    rw [h1]
    exact List.mem_append_right _ hm

/-- C1 witness: a concrete panicking collector next to a concrete
succeeding one. -/
theorem fanOutIsolation_C1_witness :
    multiCollect [⟨"boom", [], .panics [] "kaboom"⟩,
                  ⟨"steady", [], .ok [⟨"m", .gauge, .finite 1, []⟩]⟩] =
      ([⟨"m", .gauge, .finite 1, []⟩], [⟨"boom", "kaboom"⟩]) :=
  (fanOutIsolation_C1 ⟨"boom", [], .panics [] "kaboom"⟩
    ⟨"steady", [], .ok [⟨"m", .gauge, .finite 1, []⟩]⟩
    [] [⟨"m", .gauge, .finite 1, []⟩] "kaboom" rfl rfl).1

/-- A status snapshot whose `connections.current` reading is NaN. -/
def nanSnapshotC10 : BsonM := [("connections", .doc [("current", .f64 .nan)])]

/-- An all-defaults collector configuration (no custom labels, empty
allow-list, empty deny-list). -/
def defaultConfig : CollectorConfig := ⟨[], [], []⟩

/-- C10.  The only numeric rejection test in `safeGetNumericValue` is
`v < 0`, which is false for NaN and +Inf, so non-finite `float64` readings
are returned present (and also pass `validateMetricValue`) and flow into
published observations: a NaN `connections.current` is emitted as a NaN
gauge by the Server Status collector. -/
theorem nonFiniteCoercion_C10 :
    safeGetNumericValue (.f64 .nan) = some .nan ∧
    safeGetNumericValue (.f64 .posInf) = some .posInf ∧
    GoFloat.lt .nan (.finite 0) = false ∧
    GoFloat.lt .posInf (.finite 0) = false ∧
    validateMetricValue (some .nan) = true ∧
    validateMetricValue (some .posInf) = true ∧
    (⟨"mongodb_connections", .gauge, .nan,
      ["unknown", "unknown", "unknown", "current"]⟩ : Metric) ∈
      ((newServerStatusCollector defaultConfig).collect (.ok nanSnapshotC10)).2 := by
  refine ⟨rfl, rfl, rfl, rfl, rfl, rfl, ?_⟩
  have h : ((newServerStatusCollector defaultConfig).collect (.ok nanSnapshotC10)).2 =
      [⟨"mongodb_connections", .gauge, .nan,
        ["unknown", "unknown", "unknown", "current"]⟩] := rfl
  rw [h]
  exact List.mem_singleton.mpr rfl

/-- The C4 scenario snapshot: `uptime: 3600`, `connections.current: 10`,
`mem.resident: 104857600`. -/
def serverStatusSnapshotC4 : BsonM :=
  [("uptime", .f64 (.finite 3600)),
   ("connections", .doc [("current", .i32 10)]),
   ("mem", .doc [("resident", .i64 104857600)])]

/-- The metric list the Server Status collector emits on the C4 snapshot. -/
def serverStatusOutC4 : List Metric :=
  ((newServerStatusCollector defaultConfig).collect (.ok serverStatusSnapshotC4)).2

/-- C4.  End-to-end Server Status scenario: on the C4 snapshot the
collector emits an uptime gauge of 3600, a connections gauge labelled
`current` of 10, and a memory gauge labelled `resident` of
`104857600 * 1024 * 1024` — the MB-to-bytes multiplication. -/
theorem serverStatusScenario_C4 :
    (⟨"mongodb_instance_uptime_seconds", .gauge, .finite 3600,
      ["unknown", "unknown", "unknown"]⟩ : Metric) ∈ serverStatusOutC4 ∧
    (⟨"mongodb_connections", .gauge, .finite 10,
      ["unknown", "unknown", "unknown", "current"]⟩ : Metric) ∈ serverStatusOutC4 ∧
    (⟨"mongodb_memory_bytes", .gauge, .finite (104857600 * 1024 * 1024),
      ["unknown", "unknown", "unknown", "resident"]⟩ : Metric) ∈ serverStatusOutC4 := by
  have h : serverStatusOutC4 =
      [⟨"mongodb_instance_uptime_seconds", .gauge, .finite 3600,
        ["unknown", "unknown", "unknown"]⟩,
       ⟨"mongodb_connections", .gauge, .finite ((10 : Int) : ℚ),
        ["unknown", "unknown", "unknown", "current"]⟩,
       ⟨"mongodb_memory_bytes", .gauge,
        ((GoFloat.finite ((104857600 : Int) : ℚ)).mulPosNat 1024).mulPosNat 1024,
        ["unknown", "unknown", "unknown", "resident"]⟩] := rfl
  have h10 : GoFloat.finite ((10 : Int) : ℚ) = GoFloat.finite 10 := by norm_num
  have hmem :
      ((GoFloat.finite ((104857600 : Int) : ℚ)).mulPosNat 1024).mulPosNat 1024 =
        GoFloat.finite (104857600 * 1024 * 1024) := by
    unfold GoFloat.mulPosNat
    norm_num
  rw [h, h10, hmem]
  refine ⟨List.mem_cons_self _ _, ?_, ?_⟩
  · exact List.mem_cons_of_mem _ (List.mem_cons_self _ _)
  · exact List.mem_cons_of_mem _ (List.mem_cons_of_mem _ (List.mem_cons_self _ _))

/-- The C5 topology snapshot. -/
def topologySnapshotC5 : BsonM :=
  [("host", .str "test-host"),
   ("repl", .doc [("setName", .str "test-replica")]),
   ("shard", .str "test-shard")]

/-- C5.  Topology Labeler: the C5 snapshot yields exactly the three-entry
map with the snapshot's values; the empty snapshot yields all-"unknown";
in general each of the three fields independently defaults to "unknown"
when missing or wrong-typed; and merging the configured static labels last
makes a static label win on key collision (`addCustomLabels` overwrites),
while labels not named by any static label are untouched. -/
theorem topologyLabeler_C5 :
    getInstanceInfo topologySnapshotC5 =
      [("instance", "test-host"), ("replica_set", "test-replica"),
       ("shard", "test-shard")] ∧
    getInstanceInfo [] =
      [("instance", "unknown"), ("replica_set", "unknown"),
       ("shard", "unknown")] ∧
    (∀ result : BsonM,
      getInstanceInfo result =
        [("instance", (asString (bGet result "host")).getD "unknown"),
         ("replica_set",
          ((asDoc (bGet result "repl")).bind
            (fun repl => asString (bGet repl "setName"))).getD "unknown"),
         ("shard", (asString (bGet result "shard")).getD "unknown")]) ∧
    (∀ (labels : StrMap) (custom : List (String × String)) (k v : String),
      (custom.map Prod.fst).Nodup → mapGet custom k = some v →
      mapGet (addCustomLabels custom labels) k = some v) ∧
    (∀ (labels : StrMap) (custom : List (String × String)) (k : String),
      (∀ p ∈ custom, p.1 ≠ k) →
      mapGet (addCustomLabels custom labels) k = mapGet labels k) := by
  refine ⟨rfl, rfl, getInstanceInfo_fields, ?_, ?_⟩
  · intro labels custom k v hnodup hget
    exact mapGet_addCustomLabels_of_mem custom k v labels hnodup hget
  · intro labels custom k h
    exact mapGet_addCustomLabels_of_notMem custom k labels h

/-- C5 witness: a static label overrides the "instance" label of the empty
snapshot and leaves "shard" untouched. -/
theorem topologyLabeler_C5_witness :
    mapGet (addCustomLabels [("instance", "static-host")] (getInstanceInfo []))
      "instance" = some "static-host" ∧
    mapGet (addCustomLabels [("instance", "static-host")] (getInstanceInfo []))
      "shard" = mapGet (getInstanceInfo []) "shard" := by
  have h := topologyLabeler_C5
  exact ⟨h.2.2.2.1 (getInstanceInfo []) [("instance", "static-host")]
      "instance" "static-host" (by decide) (by decide),
    h.2.2.2.2 (getInstanceInfo []) [("instance", "static-host")]
      "shard" (by decide)⟩

/-- C6.  Error propagation policy for the cited collectors: `Collect` is a
total function into a metric list — no error value reaches the caller —
and on any upstream query error it returns early having emitted exactly
the observations produced before the error: nothing for a failed
`serverStatus` or `replSetGetStatus`, the member metrics for a failed
oplog `collStats`, and additionally the oplog-size gauge for a failed
newest-oplog-entry query.  Each query outcome is consulted once per cycle:
there is no retry. -/
theorem errorPropagation_C6 :
    (∀ (c : ServerStatusCollector) (e : String),
      c.collect (.error e) = (c, [])) ∧
    (∀ (config : CollectorConfig) (e : String)
       (o1 o2 : Except String BsonM),
      replicaSetCollect config (.error e) o1 o2 = []) ∧
    (∀ (config : CollectorConfig) (replStatus : BsonM) (e : String)
       (o2 : Except String BsonM),
      replicaSetCollect config (.ok replStatus) (.error e) o2 =
        if isMetricEnabled config "replica_set_status" then
          replicaSetMemberMetrics replStatus
        else []) ∧
    (∀ (config : CollectorConfig) (replStatus oplogStats : BsonM) (e : String),
      replicaSetCollect config (.ok replStatus) (.ok oplogStats) (.error e) =
        if isMetricEnabled config "replica_set_status" then
          replicaSetMemberMetrics replStatus ++
            oplogSizeMetrics (getInstanceInfo replStatus) oplogStats
        else []) := by
  refine ⟨?_, ?_, ?_, ?_⟩
  · intro c e
    unfold ServerStatusCollector.collect
    split <;> rfl
  · intro config e o1 o2
    unfold replicaSetCollect
    split <;> rfl
  · intro config replStatus e o2
    cases h : isMetricEnabled config "replica_set_status" <;>
      simp [replicaSetCollect, collectOplogMetrics, h]
  · intro config replStatus oplogStats e
    cases h : isMetricEnabled config "replica_set_status" <;>
      simp [replicaSetCollect, collectOplogMetrics, h]

/-- C7.  Profile watermark invariant: an enabled `Collect` cycle whose
database listing succeeds queries every non-system database over exactly
the half-open window from the previous `lastCheck` to the cycle's current
time, then advances `lastCheck` to that time; hence the windows of two
consecutive such cycles are adjacent ([lastCheck, now1) then [now1, now2))
and no entry timestamp lies in both. -/
theorem profileWatermark_C7 (st : ProfileState) (config : CollectorConfig)
    (dbs1 dbs2 : List String) (now1 now2 : Int)
    (henabled : isMetricEnabled config "profile" = true) :
    ((profileCollect st config (.ok dbs1) now1).1.lastCheck = now1) ∧
    (∀ w ∈ (profileCollect st config (.ok dbs1) now1).2,
      w.since = st.lastCheck ∧ w.untilT = now1) ∧
    (∀ w ∈ (profileCollect (profileCollect st config (.ok dbs1) now1).1 config
        (.ok dbs2) now2).2,
      w.since = now1 ∧ w.untilT = now2) ∧
    (∀ w1 ∈ (profileCollect st config (.ok dbs1) now1).2,
     ∀ w2 ∈ (profileCollect (profileCollect st config (.ok dbs1) now1).1 config
        (.ok dbs2) now2).2,
     ∀ t : Int, inWindow w1 t → ¬ inWindow w2 t) := by
  have h1 : profileCollect st config (.ok dbs1) now1 =
      (⟨now1⟩, (dbs1.filter (fun d => !profileShouldSkipDatabase d)).map
        (fun d => ⟨d, st.lastCheck, now1⟩)) := by
    simp [profileCollect, henabled]
  have h2 : profileCollect (profileCollect st config (.ok dbs1) now1).1 config
      (.ok dbs2) now2 =
      (⟨now2⟩, (dbs2.filter (fun d => !profileShouldSkipDatabase d)).map
        (fun d => ⟨d, now1, now2⟩)) := by
    rw [h1]
    simp [profileCollect, henabled]
  refine ⟨by rw [h1], ?_, ?_, ?_⟩
  · intro w hw
    rw [h1] at hw
    rcases List.mem_map.mp hw with ⟨d, _, rfl⟩
    exact ⟨rfl, rfl⟩
  · intro w hw
    rw [h2] at hw
    rcases List.mem_map.mp hw with ⟨d, _, rfl⟩
    exact ⟨rfl, rfl⟩
  · intro w1 hw1 w2 hw2 t ht1 ht2
    rw [h1] at hw1
    rw [h2] at hw2
    rcases List.mem_map.mp hw1 with ⟨d1, _, rfl⟩
    rcases List.mem_map.mp hw2 with ⟨d2, _, rfl⟩
    rcases ht1 with ⟨_, hlt⟩
    rcases ht2 with ⟨hge, _⟩
    simp only at hlt hge
    omega

/-- C7 witness: two consecutive cycles at times 10 and 20 starting from
watermark 0 on the database `appdb`. -/
theorem profileWatermark_C7_witness :
    (profileCollect ⟨0⟩ defaultConfig (.ok ["appdb"]) 10).1.lastCheck = 10 ∧
    (∀ t : Int, inWindow ⟨"appdb", 0, 10⟩ t → ¬ inWindow ⟨"appdb", 10, 20⟩ t) := by
  have h := profileWatermark_C7 ⟨0⟩ defaultConfig ["appdb"] ["appdb"] 10 20 rfl
  exact ⟨h.1, fun t =>
    h.2.2.2 ⟨"appdb", 0, 10⟩ (by decide) ⟨"appdb", 10, 20⟩ (by decide) t⟩

/-- C8.  Describe idempotence: the Server Status descriptor map is built at
construction and no `Collect` call modifies the collector, so `Describe`
yields the same descriptor set — the same metric names with the same
ordered label-name lists — however many collection cycles happen in
between; the concrete name/label-list set is pinned down explicitly. -/
theorem describeIdempotent_C8 (config : CollectorConfig)
    (qs : List (Except String BsonM)) :
    ((qs.foldl (fun c q => (c.collect q).1)
        (newServerStatusCollector config)).describe =
      (newServerStatusCollector config).describe) ∧
    (∀ (c : ServerStatusCollector) (q : Except String BsonM),
      ((c.collect q).1).describe = c.describe) ∧
    ((newServerStatusCollector config).describe).map
        (fun d => (d.fqName, d.variableLabels)) =
      [("mongodb_instance_uptime_seconds", ["instance", "replica_set", "shard"]),
       ("mongodb_connections", ["instance", "replica_set", "shard", "state"]),
       ("mongodb_memory_bytes", ["instance", "replica_set", "shard", "type"]),
       ("mongodb_extra_info", ["instance", "replica_set", "shard", "type"]),
       ("mongodb_network_bytes_total",
        ["instance", "replica_set", "shard", "direction"]),
       ("mongodb_op_counters_total", ["instance", "replica_set", "shard", "type"]),
       ("mongodb_metrics_document_total",
        ["instance", "replica_set", "shard", "type"]),
       ("mongodb_connections_metrics",
        ["instance", "replica_set", "shard", "type"]),
       ("mongodb_page_faults_total", ["instance", "replica_set", "shard"])] := by
  have hfold : ∀ (l : List (Except String BsonM)) (c : ServerStatusCollector),
      l.foldl (fun c q => (c.collect q).1) c = c := by
    intro l
    induction l with
    | nil => intro c; rfl
    | cons q rest ih =>
        intro c
        calc List.foldl (fun c q => (c.collect q).1) c (q :: rest)
            = List.foldl (fun c q => (c.collect q).1) (c.collect q).1 rest := rfl
          _ = List.foldl (fun c q => (c.collect q).1) c rest := by
              rw [serverStatusCollect_fst]
          _ = c := ih c
  refine ⟨by rw [hfold], ?_, rfl⟩
  intro c q
  rw [serverStatusCollect_fst]
